import Mathlib

/-!
# Verification of the incident-report validation pipeline

Shallow embedding of the content-validation and fact-verification pipeline of
the `r-log/cloudflare-worker` repository, together with proofs settling the
frozen claims about it.

Conventions of the embedding:
* JS strings are modelled as `List Char` (`Str` below); JS numbers appearing
  in confidence/score arithmetic are modelled as `ℚ` (all constants compared
  by the code, such as `0.7`, `0.8`, `0.5`, are exactly representable both as
  IEEE doubles and as rationals, and the arithmetic the code performs on them
  stays exact, so `ℚ` and the double semantics agree on every comparison made
  here).
* JS objects used as string-keyed dictionaries are modelled as association
  lists in insertion order, with assignment overwriting in place (the JS
  semantics for string keys).
* Fallible collaborators (network fetches, inference oracles) are modelled as
  explicit `Except String` values / functions supplied as parameters; a JS
  `throw` is an `Except.error`.
-/

/-- JS strings, modelled as lists of characters. -/
abbrev Str := List Char

/-- The JS ASCII whitespace characters relevant to `String.prototype.trim`
(the inputs this development evaluates on are ASCII; the additional Unicode
space characters trimmed by JS never occur in them). -/
def jsIsSpace (c : Char) : Bool :=
  c = ' ' || c = '\t' || c = '\n' || c = '\r' || c = '\x0b' || c = '\x0c'

/-- `String.prototype.trim`: drop whitespace from both ends. -/
def jsTrim (s : Str) : Str :=
  ((s.dropWhile jsIsSpace).reverse.dropWhile jsIsSpace).reverse

/-! ## FactChecker: confidence normalization (src/unnamed/part_000, lines 651-663)

```ts
private normalizeConfidence(value: number): number {
  if (value > 1) {
    const normalized = value / 100;
    return Math.min(1, Math.max(0, normalized));
  }
  return Math.min(1, Math.max(0, value));
}
```
-/

/-- `FactChecker.normalizeConfidence`. -/
def normalizeConfidence (value : ℚ) : ℚ :=
  if value > 1 then
    min 1 (max 0 (value / 100))
  else
    min 1 (max 0 value)

/-- Clamping to `[0,1]`, as worded in the spec ("all confidences clamped to
[0,1]"); stated independently of the code's `min 1 (max 0 ·)` spelling. -/
def clamp01 (x : ℚ) : ℚ := max 0 (min 1 x)

theorem clamp01_eq_min_max (x : ℚ) : clamp01 x = min 1 (max 0 x) := by
  simp only [clamp01, min_def, max_def]
  split_ifs <;> linarith

/-- C7: For every numeric confidence value v, normalization maps v to v/100
clamped to [0,1] when v > 1, and to v clamped to [0,1] otherwise: input 85
yields 0.85, input 0.85 yields 0.85, input 150 yields 1.0, and input -5
yields 0.0. -/
theorem C7_normalizeConfidence (v : ℚ) :
    (v > 1 → normalizeConfidence v = clamp01 (v / 100)) ∧
    (¬ v > 1 → normalizeConfidence v = clamp01 v) ∧
    normalizeConfidence 85 = 85/100 ∧
    normalizeConfidence (85/100) = 85/100 ∧
    normalizeConfidence 150 = 1 ∧
    normalizeConfidence (-5) = 0 := by
  refine ⟨fun h => ?_, fun h => ?_, by norm_num [normalizeConfidence],
    by norm_num [normalizeConfidence], by norm_num [normalizeConfidence],
    by norm_num [normalizeConfidence]⟩
  · rw [clamp01_eq_min_max]; simp [normalizeConfidence, h]
  · rw [clamp01_eq_min_max]; simp [normalizeConfidence, h]

/-- Witness for C7, applying the theorem at `v = 85`. -/
theorem C7_normalizeConfidence_witness :
    normalizeConfidence 85 = clamp01 (85 / 100) :=
  (C7_normalizeConfidence 85).1 (by norm_num)

/-! ## Data model (src/src/core/types.ts)

The record types carried through the fact-verification pipeline. JS object
identity matters once: `FactChecker.verifyFacts` merges per-chunk
`sourcesUsed` through `new Set(...)`, and a JS `Set` deduplicates object
elements by reference identity. Each source record reaching that merge is a
fresh object produced by `JSON.parse` on a chunk response, so identity is
modelled by a `ref` token distinguishing distinct parsed objects. -/

/-- `KeywordExtractionResult.entities` (types.ts). -/
structure EntityRecord where
  organizations : List Str
  people : List Str
  locations : List Str
  dates : List Str
  amounts : List Str
deriving DecidableEq

/-- `KeywordExtractionResult.technicalDetails` (types.ts). -/
structure TechnicalRecord where
  attackVectors : List Str
  vulnerabilities : List Str
  impactedSystems : List Str
deriving DecidableEq

/-- `KeywordExtractionResult` (types.ts). -/
structure KeywordExtractionResult where
  keyStatements : List Str
  entities : EntityRecord
  searchQueries : List Str
  technicalDetails : TechnicalRecord
deriving DecidableEq

/-- A source record as it appears in a parsed fact-verification response
(`sourcesUsed` entries carry `url`, `title`, `reliability` per the response
format in `buildVerificationPrompt`). `ref` is the object-identity token
described above; it is not a JS field. -/
structure SourceRec where
  url : Str
  title : Str
  reliability : ℚ
  ref : ℕ
deriving DecidableEq

/-- `VerifiedFact` as validated by `validateFactCheckResult` (statement,
confidence, sources; the `verificationMethod` field declared in types.ts is
never produced, read, or validated anywhere in the pipeline and is omitted). -/
structure VerifiedFact where
  statement : Str
  confidence : ℚ
  sources : List SourceRec
deriving DecidableEq

/-- `UnreliableFact` (types.ts). -/
structure UnreliableFact where
  statement : Str
  reason : Str
  suggestedCorrection : Option Str
deriving DecidableEq

/-- `FactCheckResult` (types.ts). -/
structure FactCheckResult where
  isFactual : Bool
  verifiedFacts : List VerifiedFact
  unreliableFacts : List UnreliableFact
  sourcesUsed : List SourceRec
  confidence : ℚ
deriving DecidableEq

/-! ## FactChecker.verifyFacts: chunking and merging (src/unnamed/part_000, lines 492-564)

```ts
const CHUNK_SIZE = 5;
if (extractedInfo.keyStatements.length > CHUNK_SIZE) {
  for (let i = 0; i < extractedInfo.keyStatements.length; i += CHUNK_SIZE) {
    chunks.push({ ...extractedInfo,
      keyStatements: extractedInfo.keyStatements.slice(i, i + CHUNK_SIZE) });
  }
} else { chunks.push(extractedInfo); }
...
const mergedResult: FactCheckResult = {
  isFactual: results.every(r => r.isFactual),
  verifiedFacts: results.flatMap(r => r.verifiedFacts),
  unreliableFacts: results.flatMap(r => r.unreliableFacts),
  sourcesUsed: Array.from(new Set(results.flatMap(r => r.sourcesUsed))),
  confidence: results.reduce((sum, r) => sum + r.confidence, 0) / results.length
};
```

The per-chunk verification call (`verifyFactsChunk`, a network call with
retries) is modelled as a pure function parameter giving the behaviour of a
successful run; the chunk loop is strictly sequential and its merge is a pure
function of the per-chunk results. The recursion over 5-element slices is
written with explicit fuel (an upper bound on the number of slices) so that it
is structural and evaluates inside the kernel. -/

/-- Slices of 5 taken left to right, as produced by the
`for (i += CHUNK_SIZE) ... slice(i, i + CHUNK_SIZE)` loop. `fuel` only needs
to be at least the list length. -/
def chunksOf5Aux {α : Type} : ℕ → List α → List (List α)
  | 0, _ => []
  | _, [] => []
  | fuel + 1, a :: t => ((a :: t).take 5) :: chunksOf5Aux fuel ((a :: t).drop 5)

/-- All slices of 5 of a list, left to right, the last one possibly shorter. -/
def chunksOf5 {α : Type} (l : List α) : List (List α) :=
  chunksOf5Aux l.length l

/-- Chunk construction of `verifyFacts`: statement lists of more than 5
entries are split into slices of 5, and the object spread copies every other
field of the extraction result into each chunk. -/
def buildChunks (extractedInfo : KeywordExtractionResult) : List KeywordExtractionResult :=
  if 5 < extractedInfo.keyStatements.length then
    (chunksOf5 extractedInfo.keyStatements).map
      (fun c => { extractedInfo with keyStatements := c })
  else [extractedInfo]

/-- `Array.from(new Set(l))` for a JS `Set`: keeps the first occurrence of
each element (for object elements, "element" means object identity, which the
`ref` token of `SourceRec` captures). -/
def jsSetDedupAux {α : Type} [DecidableEq α] (seen : List α) : List α → List α
  | [] => []
  | a :: t => if a ∈ seen then jsSetDedupAux seen t else a :: jsSetDedupAux (a :: seen) t

/-- `Array.from(new Set(l))`. -/
def jsSetDedup {α : Type} [DecidableEq α] (l : List α) : List α :=
  jsSetDedupAux [] l

/-- `FactChecker.verifyFacts`, with the successful per-chunk verification
behaviour supplied as `verifyChunk`. -/
def verifyFacts (verifyChunk : KeywordExtractionResult → FactCheckResult)
    (extractedInfo : KeywordExtractionResult) : FactCheckResult :=
  let results := (buildChunks extractedInfo).map verifyChunk
  { isFactual := results.all (fun r => r.isFactual)
    verifiedFacts := results.flatMap (fun r => r.verifiedFacts)
    unreliableFacts := results.flatMap (fun r => r.unreliableFacts)
    sourcesUsed := jsSetDedup (results.flatMap (fun r => r.sourcesUsed))
    confidence := (results.map (fun r => r.confidence)).sum / results.length }

/-! ### Chunking lemmas -/

theorem chunksOf5Aux_nil {α : Type} (fuel : ℕ) : chunksOf5Aux fuel ([] : List α) = [] := by
  cases fuel <;> rfl

theorem chunksOf5Aux_join {α : Type} :
    ∀ (fuel : ℕ) (l : List α), l.length ≤ fuel → (chunksOf5Aux fuel l).flatten = l := by
  intro fuel
  induction fuel with
  | zero =>
    intro l h
    have : l = [] := List.eq_nil_of_length_eq_zero (Nat.le_zero.mp h)
    subst this; rfl
  | succ n ih =>
    intro l h
    match l with
    | [] => rfl
    | a :: t =>
      have hlen : ((a :: t).drop 5).length ≤ n := by
        simp only [List.length_drop, List.length_cons] at *
        omega
      simp only [chunksOf5Aux, List.flatten_cons, ih _ hlen, List.take_append_drop]

theorem chunksOf5Aux_length {α : Type} :
    ∀ (fuel : ℕ) (l : List α), l.length ≤ fuel →
      (chunksOf5Aux fuel l).length = (l.length + 4) / 5 := by
  intro fuel
  induction fuel with
  | zero =>
    intro l h
    have : l = [] := List.eq_nil_of_length_eq_zero (Nat.le_zero.mp h)
    subst this; simp [chunksOf5Aux]
  | succ n ih =>
    intro l h
    match l with
    | [] => simp [chunksOf5Aux]
    | a :: t =>
      have hlen : ((a :: t).drop 5).length ≤ n := by
        simp only [List.length_drop, List.length_cons] at *
        omega
      have := ih _ hlen
      simp only [chunksOf5Aux, List.length_cons, this, List.length_drop] at *
      omega

theorem chunksOf5Aux_mem {α : Type} :
    ∀ (fuel : ℕ) (l : List α) (c : List α), l.length ≤ fuel →
      c ∈ chunksOf5Aux fuel l → c.length ≤ 5 ∧ c ≠ [] := by
  intro fuel
  induction fuel with
  | zero =>
    intro l c h hc
    have : l = [] := List.eq_nil_of_length_eq_zero (Nat.le_zero.mp h)
    subst this; simp [chunksOf5Aux] at hc
  | succ n ih =>
    intro l c h hc
    match l with
    | [] => simp [chunksOf5Aux] at hc
    | a :: t =>
      have hlen : ((a :: t).drop 5).length ≤ n := by
        simp only [List.length_drop, List.length_cons] at *
        omega
      simp only [chunksOf5Aux, List.mem_cons] at hc
      rcases hc with rfl | hc
      · constructor
        · simp
        · simp
      · exact ih _ _ hlen hc

theorem chunksOf5Aux_ne_nil {α : Type} (fuel : ℕ) (l : List α)
    (h : l.length ≤ fuel) (hne : l ≠ []) : chunksOf5Aux fuel l ≠ [] := by
  match fuel, l with
  | 0, l => exact absurd (List.eq_nil_of_length_eq_zero (Nat.le_zero.mp h)) hne
  | n + 1, [] => exact absurd rfl hne
  | n + 1, a :: t => simp [chunksOf5Aux]

theorem chunksOf5Aux_dropLast {α : Type} :
    ∀ (fuel : ℕ) (l : List α) (c : List α), l.length ≤ fuel →
      c ∈ (chunksOf5Aux fuel l).dropLast → c.length = 5 := by
  intro fuel
  induction fuel with
  | zero =>
    intro l c h hc
    have : l = [] := List.eq_nil_of_length_eq_zero (Nat.le_zero.mp h)
    subst this; simp [chunksOf5Aux] at hc
  | succ n ih =>
    intro l c h hc
    match l with
    | [] => simp [chunksOf5Aux] at hc
    | a :: t =>
      have hlen : ((a :: t).drop 5).length ≤ n := by
        simp only [List.length_drop, List.length_cons] at *
        omega
      by_cases hrest : (a :: t).drop 5 = []
      · rw [chunksOf5Aux, hrest, chunksOf5Aux_nil] at hc
        simp at hc
      · have hne := chunksOf5Aux_ne_nil n _ hlen hrest
        rw [chunksOf5Aux, List.dropLast_cons_of_ne_nil hne, List.mem_cons] at hc
        rcases hc with rfl | hc
        · have h5 : 5 ≤ (a :: t).length := by
            by_contra hlt
            push_neg at hlt
            exact hrest (List.drop_eq_nil_of_le (by omega))
          simp only [List.length_take, List.length_cons] at h5 ⊢
          omega
        · exact ih _ _ hlen hc

/-- Arithmetic mean of a list of rationals, as worded in the spec
("arithmetic mean of per-chunk confidences"). -/
def arithMean (l : List ℚ) : ℚ := l.sum / l.length

/-- Empty entity payload, for concrete examples. -/
def emptyEntitySet : EntityRecord := ⟨[], [], [], [], []⟩

/-- Empty technical-detail payload, for concrete examples. -/
def emptyTechnical : TechnicalRecord := ⟨[], [], []⟩

/-- An extraction result with 12 key statements. -/
def exampleTwelve : KeywordExtractionResult :=
  ⟨List.replicate 12 [], emptyEntitySet, [], emptyTechnical⟩

/-- A fixed per-chunk verification behaviour, for witnesses. -/
def constFactResult : FactCheckResult := ⟨true, [], [], [], 0⟩

/-- C4: For every extraction result whose keyStatements list has n entries
with n > 5, verifyFacts splits the statements into ceil(n/5) chunks of size 5
with a smaller final chunk (order preserved, with the full entities and
technicalDetails copied into every chunk), verifies chunks one after another,
and in the merged result isFactual is the logical AND of the per-chunk
isFactual values and confidence is the arithmetic mean of the per-chunk
confidences; in particular 12 key statements produce 3 chunks of sizes
5, 5, 2. -/
theorem C4_verifyFacts_chunking
    (verifyChunk : KeywordExtractionResult → FactCheckResult)
    (e : KeywordExtractionResult) (h : 5 < e.keyStatements.length) :
    (buildChunks e).length = (e.keyStatements.length + 4) / 5 ∧
    ((buildChunks e).map (fun c => c.keyStatements)).flatten = e.keyStatements ∧
    (∀ c ∈ buildChunks e, c.entities = e.entities ∧
      c.technicalDetails = e.technicalDetails ∧
      c.keyStatements.length ≤ 5 ∧ c.keyStatements ≠ []) ∧
    (∀ c ∈ (buildChunks e).dropLast, c.keyStatements.length = 5) ∧
    ((verifyFacts verifyChunk e).isFactual = true ↔
      ∀ r ∈ (buildChunks e).map verifyChunk, r.isFactual = true) ∧
    (verifyFacts verifyChunk e).confidence =
      arithMean (((buildChunks e).map verifyChunk).map (fun r => r.confidence)) ∧
    (buildChunks exampleTwelve).map (fun c => c.keyStatements.length) = [5, 5, 2] := by
  have hb : buildChunks e =
      (chunksOf5 e.keyStatements).map (fun c => { e with keyStatements := c }) := by
    simp [buildChunks, h]
  refine ⟨?_, ?_, ?_, ?_, ?_, ?_, by decide⟩
  · rw [hb, List.length_map]
    exact chunksOf5Aux_length _ _ le_rfl
  · rw [hb, List.map_map]
    have hcomp : ((fun c : KeywordExtractionResult => c.keyStatements) ∘
        (fun c => { e with keyStatements := c })) = id := rfl
    rw [hcomp, List.map_id]
    exact chunksOf5Aux_join _ _ le_rfl
  · intro c hc
    rw [hb] at hc
    obtain ⟨c0, hc0, rfl⟩ := List.mem_map.mp hc
    have := chunksOf5Aux_mem _ _ _ le_rfl hc0
    exact ⟨rfl, rfl, this.1, this.2⟩
  · intro c hc
    rw [hb, ← List.map_dropLast] at hc
    obtain ⟨c0, hc0, rfl⟩ := List.mem_map.mp hc
    exact chunksOf5Aux_dropLast _ _ _ le_rfl hc0
  · simp [verifyFacts, List.all_eq_true]
  · simp [verifyFacts, arithMean]

/-- Witness for C4, applying the theorem at the 12-statement example. -/
theorem C4_verifyFacts_chunking_witness :
    (buildChunks exampleTwelve).map (fun c => c.keyStatements.length) = [5, 5, 2] :=
  (C4_verifyFacts_chunking (fun _ => constFactResult) exampleTwelve
    (by decide)).2.2.2.2.2.2

/-! ## C5: the sourcesUsed merge (src/unnamed/part_000, line 543)

`sourcesUsed: Array.from(new Set(results.flatMap(r => r.sourcesUsed)))` builds
a JS `Set` of source *objects*. A JS `Set` deduplicates objects by reference
identity, and every source record in a chunk result is a fresh object created
by that chunk's `JSON.parse`, so records with equal `url` coming from
different chunks are distinct Set elements and are both kept: no
deduplication by URL happens. The failing input below is a 6-statement
extraction (two chunks) whose two chunk responses each report one source with
the same URL `"u"`. -/

/-- A source with url `"u"` as parsed from the first chunk response. -/
def srcChunkA : SourceRec := ⟨['u'], ['t'], 1, 0⟩

/-- A source with url `"u"` as parsed from the second chunk response (a
distinct JS object, hence a distinct `ref`). -/
def srcChunkB : SourceRec := ⟨['u'], ['t'], 1, 1⟩

/-- First chunk verification outcome. -/
def chunkResA : FactCheckResult := ⟨true, [], [], [srcChunkA], 1⟩

/-- Second chunk verification outcome. -/
def chunkResB : FactCheckResult := ⟨true, [], [], [srcChunkB], 1⟩

/-- An extraction result with 6 key statements (split into chunks of 5 and 1). -/
def exampleSix : KeywordExtractionResult :=
  ⟨List.replicate 6 [], emptyEntitySet, [], emptyTechnical⟩

/-- Oracle behaviour: the 5-statement chunk yields `chunkResA`, the
1-statement chunk yields `chunkResB`. -/
def twoChunkOracle : KeywordExtractionResult → FactCheckResult :=
  fun c => if c.keyStatements.length = 5 then chunkResA else chunkResB

/-- C5: the merged sourcesUsed is claimed to contain no two entries with the
same url. Evaluating the code at the failing input: both equal-URL records
survive the `new Set` merge, so the claimed URL-deduplication does not happen
(the spec describes the evident intent of `Array.from(new Set(...))`, which
for object elements can never deduplicate by URL). -/
theorem C5_sourcesUsed_merge_keeps_equal_urls :
    (verifyFacts twoChunkOracle exampleSix).sourcesUsed = [srcChunkA, srcChunkB] ∧
    srcChunkA.url = srcChunkB.url ∧
    srcChunkA ≠ srcChunkB := by
  refine ⟨by decide, rfl, by decide⟩

/-! ## FactChecker post-processing (src/unnamed/part_000, lines 880-882, 1032-1094)

```ts
result.verifiedFacts = this.processVerifiedFacts(result.verifiedFacts);
result.unreliableFacts = this.processUnreliableFacts(result.unreliableFacts);
result.confidence = this.calculateOverallConfidence(result);
```

`processVerifiedFacts` filters by `fact.confidence >= this.minConfidenceThreshold`
and sorts with `(a, b) => b.confidence - a.confidence`. `Array.prototype.sort`
is stable (ES2019), so it is modelled by a stable insertion sort with the same
comparator. `calculateOverallConfidence` is the weighted blend; its
`try/catch` fallback is dead in this model because the arithmetic cannot
throw, and `(source.reliability || 0)` is the identity here because the
response contract of §6 carries a numeric `reliability` on every source
(`|| 0` maps a reliability of exactly 0 to 0 as well). -/

/-- Insert one fact into a descending-sorted list, after all strictly more
confident facts and before equally confident ones (the placement a stable
sort gives the head element relative to an already-sorted tail). -/
def insertFactDesc (f : VerifiedFact) : List VerifiedFact → List VerifiedFact
  | [] => [f]
  | g :: t => if f.confidence < g.confidence then g :: insertFactDesc f t else f :: g :: t

/-- Stable sort by descending confidence, modelling
`.sort((a, b) => b.confidence - a.confidence)`. -/
def sortFactsDesc : List VerifiedFact → List VerifiedFact
  | [] => []
  | f :: t => insertFactDesc f (sortFactsDesc t)

/-- Default of the `minConfidenceThreshold` constructor parameter. -/
def defaultMinConfidenceThreshold : ℚ := 0.7

/-- `FactChecker.processVerifiedFacts`. -/
def processVerifiedFacts (minConfidenceThreshold : ℚ)
    (facts : List VerifiedFact) : List VerifiedFact :=
  sortFactsDesc (facts.filter (fun f => decide (minConfidenceThreshold ≤ f.confidence)))

/-- `FactChecker.processUnreliableFacts`: `facts.filter(f => f.reason && f.statement)`
(string truthiness: non-empty). -/
def processUnreliableFacts (facts : List UnreliableFact) : List UnreliableFact :=
  facts.filter (fun f => !f.reason.isEmpty && !f.statement.isEmpty)

/-- `FactChecker.calculateOverallConfidence`. -/
def calculateOverallConfidence (result : FactCheckResult) : ℚ :=
  if result.verifiedFacts.length = 0 then 0
  else
    let totalConfidence := (result.verifiedFacts.map (fun f => f.confidence)).sum
    let averageConfidence := totalConfidence / result.verifiedFacts.length
    let totalFacts := result.verifiedFacts.length + result.unreliableFacts.length
    let verifiedFrac := (result.verifiedFacts.length : ℚ) / (totalFacts : ℚ)
    let sourceReliabilitySum := (result.sourcesUsed.map (fun s => s.reliability)).sum
    let averageSourceReliability :=
      if 0 < result.sourcesUsed.length then
        sourceReliabilitySum / result.sourcesUsed.length
      else 0.5
    averageConfidence * 0.4 + verifiedFrac * 0.3 + averageSourceReliability * 0.3

/-- Lines 880-882 of `analyzeWithClaude`: the post-processing applied to a
structurally valid (already confidence-normalized) parsed response. -/
def postProcessResult (minConfidenceThreshold : ℚ)
    (result : FactCheckResult) : FactCheckResult :=
  let r1 : FactCheckResult :=
    { result with
      verifiedFacts := processVerifiedFacts minConfidenceThreshold result.verifiedFacts
      unreliableFacts := processUnreliableFacts result.unreliableFacts }
  { r1 with confidence := calculateOverallConfidence r1 }

/-- The overall-confidence blend as the claim words it: 0.4 times the mean
confidence of the retained verified facts plus 0.3 times the ratio of
verified to verified-plus-unreliable facts plus 0.3 times the mean
reliability of sources used (0.5 when no sources); 0 when no verified facts
remain. -/
def claimBlendedConfidence (v : List VerifiedFact) (u : List UnreliableFact)
    (s : List SourceRec) : ℚ :=
  if v = [] then 0
  else
    0.4 * arithMean (v.map (fun f => f.confidence)) +
    0.3 * ((v.length : ℚ) / ((v.length : ℚ) + (u.length : ℚ))) +
    0.3 * (if s = [] then 0.5 else arithMean (s.map (fun f => f.reliability)))

theorem insertFactDesc_perm (f : VerifiedFact) (l : List VerifiedFact) :
    (insertFactDesc f l).Perm (f :: l) := by
  induction l with
  | nil => exact List.Perm.refl _
  | cons g t ih =>
    by_cases h : f.confidence < g.confidence
    · simp only [insertFactDesc, if_pos h]
      exact (ih.cons g).trans (List.Perm.swap f g t)
    · simp only [insertFactDesc, if_neg h]
      exact List.Perm.refl _

theorem insertFactDesc_sorted (f : VerifiedFact) (l : List VerifiedFact)
    (h : List.Sorted (fun a b => b.confidence ≤ a.confidence) l) :
    List.Sorted (fun a b => b.confidence ≤ a.confidence) (insertFactDesc f l) := by
  induction l with
  | nil => simp [insertFactDesc]
  | cons g t ih =>
    rw [List.sorted_cons] at h
    obtain ⟨hg, ht⟩ := h
    by_cases hc : f.confidence < g.confidence
    · simp only [insertFactDesc, if_pos hc]
      rw [List.sorted_cons]
      refine ⟨fun b hb => ?_, ih ht⟩
      rcases List.mem_cons.mp ((insertFactDesc_perm f t).mem_iff.mp hb) with rfl | hb2
      · exact le_of_lt hc
      · exact hg b hb2
    · push_neg at hc
      simp only [insertFactDesc, if_neg (not_lt.mpr hc)]
      rw [List.sorted_cons]
      refine ⟨fun b hb => ?_, List.sorted_cons.mpr ⟨hg, ht⟩⟩
      rcases List.mem_cons.mp hb with rfl | hb2
      · exact hc
      · exact le_trans (hg b hb2) hc

theorem sortFactsDesc_perm (l : List VerifiedFact) : (sortFactsDesc l).Perm l := by
  induction l with
  | nil => exact List.Perm.refl _
  | cons f t ih => exact (insertFactDesc_perm f (sortFactsDesc t)).trans (ih.cons f)

theorem sortFactsDesc_sorted (l : List VerifiedFact) :
    List.Sorted (fun a b => b.confidence ≤ a.confidence) (sortFactsDesc l) := by
  induction l with
  | nil => simp [sortFactsDesc]
  | cons f t ih => exact insertFactDesc_sorted f _ ih

theorem calculateOverallConfidence_eq_claim (r : FactCheckResult) :
    calculateOverallConfidence r =
      claimBlendedConfidence r.verifiedFacts r.unreliableFacts r.sourcesUsed := by
  by_cases hv : r.verifiedFacts = []
  · simp [calculateOverallConfidence, claimBlendedConfidence, hv]
  · have hlen : r.verifiedFacts.length ≠ 0 := by
      simpa [List.length_eq_zero] using hv
    simp only [calculateOverallConfidence, claimBlendedConfidence, if_neg hlen,
      if_neg hv, arithMean, List.length_map]
    by_cases hs : r.sourcesUsed = []
    · simp only [hs, List.length_nil, lt_irrefl, if_neg (lt_irrefl 0), if_pos rfl]
      push_cast
      ring
    · have hslen : 0 < r.sourcesUsed.length := List.length_pos.mpr hs
      simp only [if_pos hslen, if_neg hs]
      push_cast
      ring

/-- C6: For every structurally valid per-chunk oracle response, the
post-processed result excludes verified facts with confidence below
minConfidenceThreshold (default 0.7) from the verified set without adding
them to the unverified set, sorts the remaining verified facts by descending
confidence, and replaces the oracle-reported confidence with 0.4 times the
mean confidence of the retained verified facts plus 0.3 times the ratio of
verified to verified-plus-unreliable facts plus 0.3 times the mean
reliability of sources used (0.5 when no sources); when zero verified facts
remain, the confidence is 0. -/
theorem C6_postProcessedResult (th : ℚ) (r : FactCheckResult) :
    ((postProcessResult th r).verifiedFacts).Perm
      (r.verifiedFacts.filter (fun f => decide (th ≤ f.confidence))) ∧
    (∀ f ∈ r.verifiedFacts, f.confidence < th →
      f ∉ (postProcessResult th r).verifiedFacts) ∧
    (∀ f ∈ (postProcessResult th r).unreliableFacts, f ∈ r.unreliableFacts) ∧
    List.Sorted (fun a b => b.confidence ≤ a.confidence)
      (postProcessResult th r).verifiedFacts ∧
    (postProcessResult th r).confidence =
      claimBlendedConfidence (postProcessResult th r).verifiedFacts
        (postProcessResult th r).unreliableFacts r.sourcesUsed := by
  have hv : (postProcessResult th r).verifiedFacts =
      processVerifiedFacts th r.verifiedFacts := rfl
  have hu : (postProcessResult th r).unreliableFacts =
      processUnreliableFacts r.unreliableFacts := rfl
  have hperm := sortFactsDesc_perm
    (r.verifiedFacts.filter (fun f => decide (th ≤ f.confidence)))
  refine ⟨hv ▸ hperm, ?_, ?_, hv ▸ sortFactsDesc_sorted _, ?_⟩
  · intro f hf hlt hmem
    rw [hv] at hmem
    have := List.mem_filter.mp (hperm.mem_iff.mp hmem)
    exact absurd (of_decide_eq_true this.2) (not_le.mpr hlt)
  · intro f hf
    rw [hu] at hf
    exact List.mem_of_mem_filter hf
  · have := calculateOverallConfidence_eq_claim
      { r with
        verifiedFacts := processVerifiedFacts th r.verifiedFacts
        unreliableFacts := processUnreliableFacts r.unreliableFacts }
    exact this

/-- Witness for C6, applying the theorem at a concrete threshold and result. -/
theorem C6_postProcessedResult_witness :
    (postProcessResult 1 constFactResult).confidence =
      claimBlendedConfidence (postProcessResult 1 constFactResult).verifiedFacts
        (postProcessResult 1 constFactResult).unreliableFacts
        constFactResult.sourcesUsed :=
  (C6_postProcessedResult 1 constFactResult).2.2.2.2

/-! ## Rate-Limited Call Adapter: token estimation (src/unnamed/part_000, lines 64-68, 80-88)

```ts
private estimateTokenCount(text: string): number {
  return Math.ceil(text.length / 4);
}
...
const estimatedInputTokens = this.estimateTokenCount(requestBody);
...
this.inputTokensThisMinute += estimatedInputTokens;
```

`text.length` in JS is the number of UTF-16 code units, not the UTF-8 byte
length (the code computes byte lengths elsewhere via `TextEncoder`, but not
here). A JS string is modelled as its list of Unicode scalar values; a
character below U+10000 is one UTF-16 code unit, anything else two. -/

/-- UTF-16 code units taken by one character. -/
def utf16CharSize (c : Char) : ℕ := if c.toNat < 0x10000 then 1 else 2

/-- UTF-8 bytes taken by one character. -/
def utf8CharSize (c : Char) : ℕ :=
  if c.toNat < 0x80 then 1
  else if c.toNat < 0x800 then 2
  else if c.toNat < 0x10000 then 3
  else 4

/-- JS `text.length`: UTF-16 code units. -/
def jsStringLength (s : Str) : ℕ := (s.map utf16CharSize).sum

/-- UTF-8 byte length of a string. -/
def utf8ByteLength (s : Str) : ℕ := (s.map utf8CharSize).sum

/-- `Math.ceil(n / k)` for natural `n` and positive natural `k`. -/
def mathCeilDiv (n k : ℕ) : ℕ := (n + k - 1) / k

/-- `KeywordExtractor.estimateTokenCount`. -/
def estimateTokenCount (text : Str) : ℕ := mathCeilDiv (jsStringLength text) 4

/-- The adapter's per-minute window counters. -/
structure RateWindowState where
  requestsThisMinute : ℕ
  inputTokensThisMinute : ℕ
  outputTokensThisMinute : ℕ
deriving DecidableEq

/-- Lines 82 and 115: the estimate for the request body is charged against
the input-token window. -/
def chargeInputTokens (st : RateWindowState) (requestBody : Str) : RateWindowState :=
  { st with inputTokensThisMinute :=
      st.inputTokensThisMinute + estimateTokenCount requestBody }

/-- Four copies of U+00E9 (two UTF-8 bytes each, one UTF-16 code unit each). -/
def fourTwoByteChars : Str := ['é', 'é', 'é', 'é']

/-- C10 counterexample: on a request body of four two-byte characters the
code charges ceil(4/4) = 1 token, while the ceiling of the UTF-8 byte length
divided by 4 is ceil(8/4) = 2; the claimed equality fails. -/
theorem C10_estimateTokenCount_counterexample :
    (chargeInputTokens ⟨0, 0, 0⟩ fourTwoByteChars).inputTokensThisMinute = 1 ∧
    mathCeilDiv (utf8ByteLength fourTwoByteChars) 4 = 2 ∧
    (chargeInputTokens ⟨0, 0, 0⟩ fourTwoByteChars).inputTokensThisMinute ≠
      mathCeilDiv (utf8ByteLength fourTwoByteChars) 4 := by
  refine ⟨by decide, by decide, by decide⟩

theorem utf8ByteLength_eq_jsStringLength (s : Str)
    (h : ∀ c ∈ s, c.toNat < 0x80) : utf8ByteLength s = jsStringLength s := by
  induction s with
  | nil => rfl
  | cons c t ih =>
    have hc := h c (List.mem_cons_self c t)
    have ht := ih (fun x hx => h x (List.mem_cons_of_mem c hx))
    simp only [utf8ByteLength, jsStringLength, List.map_cons, List.sum_cons] at *
    rw [ht, utf8CharSize, utf16CharSize, if_pos hc, if_pos (by omega)]

/-- C10 amended: the token count charged against the input-token budget
equals the ceiling of the body's UTF-16 code-unit count (JS `length`) divided
by 4; this coincides with the ceiling of the UTF-8 byte length divided by 4
exactly on bodies made of one-byte characters. -/
theorem C10_estimateTokenCount_utf16 (st : RateWindowState) (s : Str)
    (h : ∀ c ∈ s, c.toNat < 0x80) :
    (chargeInputTokens st s).inputTokensThisMinute =
      st.inputTokensThisMinute + mathCeilDiv (jsStringLength s) 4 ∧
    (chargeInputTokens st s).inputTokensThisMinute =
      st.inputTokensThisMinute + mathCeilDiv (utf8ByteLength s) 4 := by
  constructor
  · rfl
  · rw [utf8ByteLength_eq_jsStringLength s h]; rfl

/-- Witness for C10's amended theorem at the ASCII body `"abcde"`. -/
theorem C10_estimateTokenCount_utf16_witness :
    (chargeInputTokens ⟨0, 0, 0⟩ "abcde".toList).inputTokensThisMinute =
      0 + mathCeilDiv (utf8ByteLength "abcde".toList) 4 :=
  (C10_estimateTokenCount_utf16 ⟨0, 0, 0⟩ "abcde".toList (by decide)).2

/-! ## DuplicationChecker.checkDuplication (src/src/core/articleValidator.ts, lines 216-279)

```ts
const existingFiles = await this.findExistingArticles(filename);
if (existingFiles.length === 0) { return { isDuplicate: false }; }
for (const existingFile of existingFiles) {
  const existingContent = await this.fetchExistingArticle(existingFile);
  const comparisonResult = await this.compareWithOpenRouter(newContent, existingContent, key);
  if (!comparisonResult.hasNewInformation && comparisonResult.similarityScore
      && comparisonResult.similarityScore > 0.8) {
    return { isDuplicate: true, existingFilePath: existingFile, comparisonResult };
  }
  if (comparisonResult.hasNewInformation) {
    return { isDuplicate: false, existingFilePath: existingFile, comparisonResult };
  }
}
return { isDuplicate: false };
```

The corpus fetch and the comparison oracle are collaborators, modelled as
function parameters. The truthiness test `comparisonResult.similarityScore &&`
is falsy for the number 0 (and for NaN, which is outside the rational model;
a NaN score would also fail the `> 0.8` comparison, giving the same
outcome), so it is embedded as `≠ 0`. -/

/-- `ComparisonResult` (types.ts), as validated by `compareWithOpenRouter`. -/
structure ComparisonResult where
  hasNewInformation : Bool
  differences : List Str
  similarityScore : ℚ
deriving DecidableEq

/-- `DuplicationCheckResult` (types.ts). -/
structure DuplicationCheckResult where
  isDuplicate : Bool
  existingFilePath : Option Str
  comparisonResult : Option ComparisonResult
deriving DecidableEq

/-- The candidate loop of `checkDuplication`, over the matching file paths in
listing order; `compare` is the comparison oracle applied to
(newContent, existingContent) and `fetchContent` the corpus fetch. The `[]`
case also covers the `existingFiles.length === 0` early return, which builds
the same verdict. -/
def checkDuplicationLoop (compare : Str → Str → ComparisonResult)
    (fetchContent : Str → Str) (newContent : Str) :
    List Str → DuplicationCheckResult
  | [] => ⟨false, none, none⟩
  | existingFile :: rest =>
    let c := compare newContent (fetchContent existingFile)
    if c.hasNewInformation = false ∧ c.similarityScore ≠ 0 ∧
        (8 : ℚ)/10 < c.similarityScore then
      ⟨true, some existingFile, some c⟩
    else if c.hasNewInformation = true then
      ⟨false, some existingFile, some c⟩
    else
      checkDuplicationLoop compare fetchContent newContent rest

/-- `findExistingArticles`: the corpus listing entries (name, path) whose
name equals the submission's base filename, in listing order. -/
def findExistingArticles (listing : List (Str × Str)) (baseFilename : Str) : List Str :=
  (listing.filter (fun f => f.1 = baseFilename)).map (fun f => f.2)

/-- `DuplicationChecker.checkDuplication`. -/
def checkDuplication (compare : Str → Str → ComparisonResult)
    (fetchContent : Str → Str) (listing : List (Str × Str))
    (newContent baseFilename : Str) : DuplicationCheckResult :=
  checkDuplicationLoop compare fetchContent newContent
    (findExistingArticles listing baseFilename)

/-- The comparison of the claim's first concrete instance. -/
def cmp081 : ComparisonResult := ⟨false, [], 81/100⟩

/-- The comparison of the claim's second concrete instance. -/
def cmp095 : ComparisonResult := ⟨true, [], 95/100⟩

/-- C2: For every sequence of candidate comparisons, checkDuplication
evaluates candidates in listing order and returns at the first conclusive
result: similarityScore > 0.8 with hasNewInformation = false gives
isDuplicate=true with the matched path and comparison attached;
hasNewInformation = true gives isDuplicate=false with the comparison
attached; otherwise the next candidate is tried. Concretely,
similarityScore=0.81 with hasNewInformation=false gives isDuplicate=true and
similarityScore=0.95 with hasNewInformation=true gives isDuplicate=false
with comparison attached. -/
theorem C2_checkDuplication_order (compare : Str → Str → ComparisonResult)
    (fetchContent : Str → Str) (newContent p : Str) (rest : List Str) :
    ((8 : ℚ)/10 < (compare newContent (fetchContent p)).similarityScore →
      (compare newContent (fetchContent p)).hasNewInformation = false →
      checkDuplicationLoop compare fetchContent newContent (p :: rest) =
        ⟨true, some p, some (compare newContent (fetchContent p))⟩) ∧
    ((compare newContent (fetchContent p)).hasNewInformation = true →
      ¬ ((8 : ℚ)/10 < (compare newContent (fetchContent p)).similarityScore ∧
          (compare newContent (fetchContent p)).hasNewInformation = false) →
      checkDuplicationLoop compare fetchContent newContent (p :: rest) =
        ⟨false, some p, some (compare newContent (fetchContent p))⟩) ∧
    ((compare newContent (fetchContent p)).hasNewInformation = false →
      (compare newContent (fetchContent p)).similarityScore ≤ (8 : ℚ)/10 →
      checkDuplicationLoop compare fetchContent newContent (p :: rest) =
        checkDuplicationLoop compare fetchContent newContent rest) ∧
    checkDuplicationLoop (fun _ _ => cmp081) fetchContent newContent [p] =
      ⟨true, some p, some cmp081⟩ ∧
    checkDuplicationLoop (fun _ _ => cmp095) fetchContent newContent [p] =
      ⟨false, some p, some cmp095⟩ := by
  refine ⟨fun hs hn => ?_, fun hn hnot => ?_, fun hn hs => ?_, ?_, ?_⟩
  · simp only [checkDuplicationLoop]
    rw [if_pos ⟨hn, by intro h0; rw [h0] at hs; norm_num at hs, hs⟩]
  · simp only [checkDuplicationLoop]
    rw [if_neg (by simp [hn]), if_pos hn]
  · simp only [checkDuplicationLoop]
    rw [if_neg (by rintro ⟨-, -, h⟩; exact absurd h (not_lt.mpr hs)), if_neg (by simp [hn])]
  · simp only [checkDuplicationLoop]
    rw [if_pos (by refine ⟨rfl, by norm_num [cmp081], by norm_num [cmp081]⟩)]
  · simp only [checkDuplicationLoop]
    rw [if_neg (by simp [cmp095]), if_pos (show cmp095.hasNewInformation = true from rfl)]

/-- Witness for C2, applying the theorem's first rule at the 0.81
comparison. -/
theorem C2_checkDuplication_order_witness :
    checkDuplicationLoop (fun _ _ => cmp081) (fun _ => []) [] [['a']] =
      ⟨true, some ['a'], some cmp081⟩ :=
  (C2_checkDuplication_order (fun _ _ => cmp081) (fun _ => []) [] ['a'] []).1
    (by norm_num [cmp081]) (by norm_num [cmp081])

/-! ## Section extraction (src/src/core/articleValidator.ts lines 338-372,
identical to SectionValidator.extractSections in src/unnamed/part_000 lines 1159-1193)

```ts
const contentWithoutFrontMatter = content.replace(/^---\n[\s\S]*?\n---\n/, '').trim();
const sectionMatches = contentWithoutFrontMatter.match(/(?:^|\n)## ([^\n]+)([^#]*?)(?=\n## |$)/g);
if (!sectionMatches) { errors.push('No sections found in the article'); return { sections, errors }; }
sectionMatches.forEach(section => {
  const titleMatch = section.match(/## ([^\n]+)/);
  if (titleMatch) {
    const sectionName = titleMatch[1].trim();
    const content = section.replace(/## [^\n]+\n/, '').trim();
    sections[sectionName] = content;
  }
});
```

The section regex `(?:^|\n)## ([^\n]+)([^#]*?)(?=\n## |$)` (no `m` flag, so
`^` is position 0 only and `$` is end of input) is specialized as follows.
A match attempt at a position first takes the `^` alternative (possible only
at position 0) or consumes one `'\n'`, then the literal `"## "`, then the
greedy title `[^\n]+` (at least one non-newline character), then the lazy
body `[^#]*?` up to the lookahead `\n## ` or end of input.

* The lazy body succeeds exactly when the segment from the end of the title
  to the **first** lookahead position (the first occurrence of `"\n## "` at
  or after it, or else the end of input) is free of `'#'`: the body grows
  from the empty string one character at a time, cannot cross a `'#'`, and
  any later lookahead position only enlarges the segment, so if the first
  one is blocked by a `'#'` all are.
* Backtracking into a shorter title never creates a match that the greedy
  title misses: title characters are non-newline, so no `"\n## "` (and no
  end of input) occurs strictly inside the greedy title; every lookahead
  position therefore lies at or after the greedy title's end, and a body
  that starts earlier only covers a larger, equally `'#'`-blocked segment.
* The two alternatives of `(?:^|\n)` cannot both apply at one position (the
  first requires `'#'` next, the second `'\n'`), so their order is
  irrelevant.

Global matching walks left to right: the earliest position where a match
attempt succeeds yields a match, scanning resumes at the end of the matched
text (the lookahead is not consumed), and on failure the start position
advances by one. The scan is written with fuel (any bound above the input
length works, since every step consumes at least one character). -/

/-- The literal `"## "`. -/
def hashHashSpace : Str := ['#', '#', ' ']

/-- The literal `"\n## "`. -/
def nlHashHashSpace : Str := ['\n', '#', '#', ' ']

/-- Distance to the first lookahead position of `(?=\n## |$)`: the first
index where `"\n## "` starts, or the length of the string. -/
def findStopLen : Str → ℕ
  | [] => 0
  | a :: t => if nlHashHashSpace.isPrefixOf (a :: t) then 0 else findStopLen t + 1

/-- One match attempt of the section regex after its `(?:^|\n)` anchor has
consumed `anchor` and `s1` remains: `"## "`, a non-empty greedy title, then
the lazy body up to the first lookahead position, which must be `'#'`-free.
Returns the matched text and the remaining input (the lookahead text is not
consumed). -/
def attemptBody (anchor : Str) (s1 : Str) : Option (Str × Str) :=
  if hashHashSpace.isPrefixOf s1 then
    let title := (s1.drop 3).takeWhile (fun c => c != '\n')
    if title.isEmpty then none
    else
      let u := (s1.drop 3).dropWhile (fun c => c != '\n')
      let q := findStopLen u
      if '#' ∈ u.take q then none
      else some (anchor ++ hashHashSpace ++ title ++ u.take q, u.drop q)
  else none

/-- A match attempt of the full section regex at the current position;
`atZero` tells whether this is position 0 (where the `^` alternative of
`(?:^|\n)` applies). -/
def tryMatchAt (atZero : Bool) (s : Str) : Option (Str × Str) :=
  match (if atZero then attemptBody [] s else none) with
  | some r => some r
  | none =>
    match s with
    | [] => none
    | a :: t => if a = '\n' then attemptBody ['\n'] t else none

/-- The global scan of `String.prototype.match` with the `g` flag: all
matched texts, left to right. -/
def scanMatchesAux : ℕ → Bool → Str → List Str
  | 0, _, _ => []
  | fuel + 1, atZero, s =>
    match tryMatchAt atZero s with
    | some (m, rest) => m :: scanMatchesAux fuel false rest
    | none =>
      match s with
      | [] => []
      | _ :: t => scanMatchesAux fuel false t

/-- All matches of the section regex in `s`. -/
def scanMatches (s : Str) : List Str := scanMatchesAux (s.length + 1) true s

/-- First index at which `pat` starts inside a string, if any. -/
def firstMatchPos (pat : Str) : Str → Option ℕ
  | [] => if pat.isPrefixOf ([] : Str) then some 0 else none
  | a :: t => if pat.isPrefixOf (a :: t) then some 0 else (firstMatchPos pat t).map (· + 1)

/-- The literal `"---\n"`. -/
def frontMatterOpen : Str := ['-', '-', '-', '\n']

/-- The literal `"\n---\n"`. -/
def frontMatterClose : Str := ['\n', '-', '-', '-', '\n']

/-- `content.replace(/^---\n[\s\S]*?\n---\n/, '')`: if the input starts with
`"---\n"` and `"\n---\n"` occurs later, drop everything up to and including
the earliest such occurrence (the lazy `[\s\S]*?` picks the earliest close);
otherwise the input is unchanged. -/
def stripFrontMatter (content : Str) : Str :=
  if frontMatterOpen.isPrefixOf content then
    match firstMatchPos frontMatterClose (content.drop 4) with
    | some q => (content.drop 4).drop (q + 5)
    | none => content
  else content

/-- Length of the first match of `/## [^\n]+\n/` at the start of `s`, if
any: `"## "`, a non-empty greedy run of non-newline characters, then a
newline. Shortening the greedy run only lands on another non-newline
character, so greedy matching is complete here as well. -/
def headingMatchLen (s : Str) : Option ℕ :=
  if hashHashSpace.isPrefixOf s then
    let title := (s.drop 3).takeWhile (fun c => c != '\n')
    if title.isEmpty then none
    else if ((s.drop 3).dropWhile (fun c => c != '\n')).isEmpty then none
    else some (3 + title.length + 1)
  else none

/-- `m.replace(/## [^\n]+\n/, '')`: delete the first heading line
(including its newline), leaving everything else. -/
def replaceHeadingOnce : Str → Str
  | [] => []
  | a :: t =>
    match headingMatchLen (a :: t) with
    | some len => (a :: t).drop len
    | none => a :: replaceHeadingOnce t

/-- `m.match(/## ([^\n]+)/)`: the capture of the first position where
`"## "` is followed by at least one non-newline character. -/
def firstHeadingTitle : Str → Option Str
  | [] => none
  | a :: t =>
    if hashHashSpace.isPrefixOf (a :: t) &&
        !(((a :: t).drop 3).takeWhile (fun c => c != '\n')).isEmpty then
      some (((a :: t).drop 3).takeWhile (fun c => c != '\n'))
    else firstHeadingTitle t

/-- Assignment `sections[k] = v` on a JS object used as a dictionary: an
existing string key keeps its position and gets the new value, a new key is
appended. -/
def setKey (m : List (Str × Str)) (k v : Str) : List (Str × Str) :=
  if m.any (fun p => p.1 = k) then
    m.map (fun p => if p.1 = k then (k, v) else p)
  else m ++ [(k, v)]

/-- Key lookup `sections[k]` (JS object, string keys are unique). -/
def getVal (m : List (Str × Str)) (k : Str) : Option Str :=
  (m.find? (fun p => p.1 = k)).map (fun p => p.2)

/-- The error pushed when the section regex finds no match. -/
def noSectionsError : Str := "No sections found in the article".toList

/-- `ArticleValidator.extractSections` (and the identical
`SectionValidator.extractSections`). The `titleMatch` of a matched section
always succeeds, but the source guards on it, hence the `match`. -/
def extractSections (content : Str) : (List (Str × Str)) × List Str :=
  let contentWithoutFrontMatter := jsTrim (stripFrontMatter content)
  let sectionMatches := scanMatches contentWithoutFrontMatter
  if sectionMatches.isEmpty then ([], [noSectionsError])
  else
    (sectionMatches.foldl (fun acc m =>
      match firstHeadingTitle m with
      | some title => setKey acc (jsTrim title) (jsTrim (replaceHeadingOnce m))
      | none => acc) [], [])

/-! ## Required-section checks (src/src/core/articleValidator.ts lines 411-432,
identical logic in SectionValidator.validateSections, part_000 lines 1195-1232) -/

/-- `REQUIRED_SECTIONS` (the source maps `.trim()` over the literals, an
identity on them, kept for faithfulness). -/
def REQUIRED_SECTIONS : List Str :=
  (["Summary".toList, "Attackers".toList, "Losses".toList,
    "Timeline".toList, "Security Failure Causes".toList]).map jsTrim

/-- JS truthiness of `sections[section]`: false for an absent key and for
the empty string. -/
def sectionTruthy (m : List (Str × Str)) (k : Str) : Bool :=
  match getVal m k with
  | none => false
  | some v => !v.isEmpty

/-- `REQUIRED_SECTIONS.forEach(s => { if (!sections[s]) missing.push(s) })`. -/
def missingRequiredSections (sections : List (Str × Str)) : List Str :=
  REQUIRED_SECTIONS.filter (fun s => !sectionTruthy sections s)

/-- `Object.keys(sections).forEach(s => { if (!REQUIRED_SECTIONS.includes(s)) additional.push(s) })`. -/
def additionalSections (sections : List (Str × Str)) : List Str :=
  (sections.map (fun p => p.1)).filter (fun s => !(REQUIRED_SECTIONS.contains s))

/-- The error pushed for a section whose value trims to the empty string. -/
def sectionEmptyMsg (name : Str) : Str :=
  "Section \"".toList ++ name ++ "\" is empty".toList

/-- `Object.entries(sections).forEach(([s, c]) => { if (!c.trim()) errors.push(...) })`. -/
def emptySectionErrors (sections : List (Str × Str)) : List Str :=
  sections.filterMap (fun p =>
    if (jsTrim p.2).isEmpty then some (sectionEmptyMsg p.1) else none)

/-! ## C9 and C8: behaviour of section extraction -/

/-- Whether `"\n## "` occurs anywhere in the string. Together with a missing
`"## "` prefix this means the section regex has no match anywhere: every
match starts with `"## "` at position 0 or with `"\n## "`. -/
def hasNlHeadingTok : Str → Bool
  | [] => false
  | a :: t => nlHashHashSpace.isPrefixOf (a :: t) || hasNlHeadingTok t

theorem nlPrefix_cons (t : Str) :
    nlHashHashSpace.isPrefixOf ('\n' :: t) = hashHashSpace.isPrefixOf t := rfl

theorem attemptBody_eq_none (anchor s1 : Str)
    (h : hashHashSpace.isPrefixOf s1 = false) : attemptBody anchor s1 = none := by
  simp [attemptBody, h]

theorem tryMatchAt_eq_none (atZero : Bool) (s : Str)
    (h1 : atZero = true → hashHashSpace.isPrefixOf s = false)
    (h2 : hasNlHeadingTok s = false) : tryMatchAt atZero s = none := by
  have hz : (if atZero then attemptBody [] s else none) = none := by
    cases atZero with
    | false => rfl
    | true => simp [attemptBody_eq_none _ _ (h1 rfl)]
  simp only [tryMatchAt, hz]
  match s with
  | [] => rfl
  | a :: t =>
    by_cases ha : a = '\n'
    · subst ha
      rw [hasNlHeadingTok, Bool.or_eq_false_iff] at h2
      simp only [if_pos rfl]
      exact attemptBody_eq_none _ _ (by rw [← nlPrefix_cons]; exact h2.1)
    · simp [ha]

theorem scanMatchesAux_succ (n : ℕ) (atZero : Bool) (s : Str) :
    scanMatchesAux (n + 1) atZero s =
      (match tryMatchAt atZero s with
       | some (m, rest) => m :: scanMatchesAux n false rest
       | none =>
         match s with
         | [] => []
         | _ :: t => scanMatchesAux n false t) := rfl

theorem scanMatchesAux_eq_nil (fuel : ℕ) : ∀ (atZero : Bool) (s : Str),
    (atZero = true → hashHashSpace.isPrefixOf s = false) →
    hasNlHeadingTok s = false → scanMatchesAux fuel atZero s = [] := by
  induction fuel with
  | zero => intro _ _ _ _; rfl
  | succ n ih =>
    intro atZero s h1 h2
    rw [scanMatchesAux_succ, tryMatchAt_eq_none atZero s h1 h2]
    match s with
    | [] => rfl
    | a :: t =>
      rw [hasNlHeadingTok, Bool.or_eq_false_iff] at h2
      exact ih false t (by intro h; cases h) h2.2

/-- A document whose first section body contains a `'#'`. -/
def docHash : Str := "## Summary\na # b\n## Attackers\nC".toList

/-- A document whose first section body is whitespace only. -/
def emptyBodyDoc : Str := "## Summary\n \n## Attackers\nB".toList

/-- C9 counterexample: `docHash` opens with the level-2 heading
`"## Summary"`, yet the extracted SectionMap has no entry for it — the lazy
body `[^#]*?` of the section regex cannot cross the `'#'` in the body, so
the whole first section is skipped. The claimed "one entry for each level-2
heading" fails. -/
theorem C9_extractSections_counterexample :
    ("## Summary\n".toList).isPrefixOf docHash = true ∧
    getVal (extractSections docHash).1 ("Summary".toList) = none ∧
    (extractSections docHash).1 = [("Attackers".toList, "C".toList)] ∧
    (extractSections docHash).2 = [] := by
  refine ⟨by decide, by decide, by decide, by decide⟩

/-- C9 amended: extractSections never raises (the embedding is a total
function), and for every input whose remaining text (front matter stripped,
trimmed) contains no level-2 heading token — no `"## "` prefix and no
`"\n## "` anywhere, so the section regex cannot match — it returns the
empty map together with the error `'No sections found in the article'`. -/
theorem C9_extractSections_behavior (content : Str)
    (h1 : hashHashSpace.isPrefixOf (jsTrim (stripFrontMatter content)) = false)
    (h2 : hasNlHeadingTok (jsTrim (stripFrontMatter content)) = false) :
    extractSections content = ([], [noSectionsError]) := by
  have hscan : scanMatches (jsTrim (stripFrontMatter content)) = [] :=
    scanMatchesAux_eq_nil _ _ _ (fun _ => h1) h2
  simp [extractSections, hscan]

/-- Witness for C9's amended theorem: a document with no level-2 heading
yields the empty map plus the error. -/
theorem C9_extractSections_behavior_witness :
    extractSections ("hello".toList) = ([], [noSectionsError]) :=
  C9_extractSections_behavior ("hello".toList) (by decide) (by decide)

/-- C8 counterexample: in `emptyBodyDoc` the section name `"Summary"` is
found (it is a key of the extracted SectionMap, and fewer than 5 required
names are found, satisfying the claim's precondition), yet the code also
reports it missing, because the membership test `!sections[section]` treats
the empty-string body as absent. `missingRequiredSections` is therefore not
the set difference between RequiredSectionSet and the found names. -/
theorem C8_missingRequiredSections_counterexample :
    ("Summary".toList ∈ (extractSections emptyBodyDoc).1.map Prod.fst) ∧
    ("Summary".toList ∈ missingRequiredSections (extractSections emptyBodyDoc).1) ∧
    (REQUIRED_SECTIONS.filter
      (fun r => decide (r ∈ (extractSections emptyBodyDoc).1.map Prod.fst))).length < 5 := by
  refine ⟨by decide, by decide, by decide⟩

/-- C8 amended: for every document whose extracted sections contain fewer
than the 5 required section names, missingRequiredSections equals the set
difference between the RequiredSectionSet {Summary, Attackers, Losses,
Timeline, Security Failure Causes} and the set of section names found *with
a non-empty body*: a name bound to the empty string counts as missing. -/
theorem C8_missingRequiredSections_eq (content : Str)
    (_h : (REQUIRED_SECTIONS.filter
      (fun r => decide (r ∈ (extractSections content).1.map Prod.fst))).length < 5) :
    ∀ r, r ∈ missingRequiredSections (extractSections content).1 ↔
      (r ∈ REQUIRED_SECTIONS ∧
        ¬ ∃ v, getVal (extractSections content).1 r = some v ∧ v ≠ []) := by
  intro r
  rw [missingRequiredSections, List.mem_filter]
  constructor
  · rintro ⟨hmem, htruthy⟩
    refine ⟨hmem, ?_⟩
    rintro ⟨v, hv, hne⟩
    rw [Bool.not_eq_eq_eq_not, Bool.not_true] at htruthy
    rw [sectionTruthy, hv] at htruthy
    simp only [Bool.not_eq_false'] at htruthy
    exact hne (List.isEmpty_iff.mp htruthy)
  · rintro ⟨hmem, hnex⟩
    refine ⟨hmem, ?_⟩
    rw [Bool.not_eq_eq_eq_not, Bool.not_true, sectionTruthy]
    match hget : getVal (extractSections content).1 r with
    | none => rfl
    | some v =>
      by_cases hv : v = []
      · subst hv; rfl
      · exact absurd ⟨v, hget, hv⟩ hnex

/-- Witness for C8's amended theorem at `emptyBodyDoc` and the section name
`"Summary"`. -/
theorem C8_missingRequiredSections_eq_witness :
    "Summary".toList ∈ missingRequiredSections (extractSections emptyBodyDoc).1 ↔
      ("Summary".toList ∈ REQUIRED_SECTIONS ∧
        ¬ ∃ v, getVal (extractSections emptyBodyDoc).1 ("Summary".toList) = some v ∧
          v ≠ []) :=
  C8_missingRequiredSections_eq emptyBodyDoc (by decide) ("Summary".toList)

/-! ## Front matter (src/src/core/articleValidator.ts, lines 289-336)

The YAML parser (`yaml.parse`, an external library) is a collaborator: its
behaviour is a function parameter turning the front-matter block into a
typed record or throwing. The record carries each field at the granularity
the validator inspects: string fields are checked for truthiness (empty =
falsy), `entity-types` for being a non-empty array (a non-array value is
modelled as `none`), `loss` for being a number (a non-number as `none`). -/

/-- `ArticleFrontMatter` (types.ts), at validation granularity. -/
structure ArticleFrontMatter where
  date : Str
  targetEntities : Str
  entityTypes : Option (List Str)
  attackTypes : Str
  title : Str
  loss : Option ℚ
deriving DecidableEq

/-- The test `/^\d{4}-\d{2}-\d{2}$/.test(date)`. -/
def matchesDatePattern : Str → Bool
  | [y1, y2, y3, y4, s1, m1, m2, s2, d1, d2] =>
    y1.isDigit && y2.isDigit && y3.isDigit && y4.isDigit && (s1 == '-') &&
    m1.isDigit && m2.isDigit && (s2 == '-') && d1.isDigit && d2.isDigit
  | _ => false

/-- `ArticleValidator.validateFrontMatter`: `(isValid, errors)` with the
errors pushed in source order. -/
def validateFrontMatter (fm : ArticleFrontMatter) : Bool × List Str :=
  let errors :=
    (if matchesDatePattern fm.date then [] else
      ["Date must be in YYYY-MM-DD format".toList]) ++
    (if fm.targetEntities.isEmpty then ["target-entities is required".toList] else []) ++
    (match fm.entityTypes with
     | some (_ :: _) => []
     | _ => ["entity-types must be a non-empty array".toList]) ++
    (if fm.attackTypes.isEmpty then ["attack-types is required".toList] else []) ++
    (if fm.title.isEmpty then ["title is required".toList] else []) ++
    (match fm.loss with
     | some _ => []
     | none => ["loss must be a number".toList])
  (errors.isEmpty, errors)

/-- The literal `"\n---"`: the close of the parse regex
`^---\n([\s\S]*?)\n---` which, unlike the strip regex of `extractSections`,
has no trailing newline. -/
def frontMatterCloseShort : Str := ['\n', '-', '-', '-']

/-- `ArticleValidator.parseFrontMatter`: the block between `"---\n"` at the
start and the earliest following `"\n---"` is handed to the YAML parser
(lazy `[\s\S]*?` picks the earliest close); a thrown parse error is caught
and reported. -/
def parseFrontMatter (yamlParse : Str → Except Str ArticleFrontMatter)
    (content : Str) : Option ArticleFrontMatter × List Str :=
  if frontMatterOpen.isPrefixOf content then
    match firstMatchPos frontMatterCloseShort (content.drop 4) with
    | some q =>
      match yamlParse ((content.drop 4).take q) with
      | .ok fm => (some fm, [])
      | .error e => (none, ["Failed to parse front matter: ".toList ++ e])
    | none => (none, ["Front matter not found or invalid format".toList])
  else (none, ["Front matter not found or invalid format".toList])

/-! ## The validateArticle orchestrator (src/src/core/articleValidator.ts, lines 374-440)

The version of `ArticleValidator` under `src/` takes two constructor
arguments and never fact-checks; the deployed orchestrator is the
four-argument `ArticleValidator` constructed in `src/core/queue.ts`
(`new ArticleValidator(githubToken, repoFullName, claudeApiKey, braveApiKey)`,
line 197) whose result carries the `factCheck` field declared on
`ArticleValidationResult` in types.ts — that file is not under `src/`. Its
structure-validation and duplication logic is the code of
articleValidator.ts lines 374-440, embedded below; its fact-check stage and
final-validity formula are modelled from the spec (§4.7) in the two
`spec...` definitions. -/

/-- `ArticleValidationResult` (types.ts, the variant with `factCheck`). -/
structure ArticleValidationResult where
  isValid : Bool
  errors : List Str
  warnings : List Str
  frontMatterValid : Bool
  sectionsValid : Bool
  missingRequiredSections : List Str
  additionalSections : List Str
  duplicationCheck : Option DuplicationCheckResult
  factCheck : Option FactCheckResult
deriving DecidableEq

/-- The behaviours of the external collaborators for one run: the outcome of
the duplication stage (GitHub fetches plus comparison oracle), the YAML
parser, and the outcome of the fact-check pipeline (claim extraction, source
search and fact verification; `none` when the stage is skipped or reports
nothing). -/
structure CollaboratorBehavior where
  dupOutcome : Except Str DuplicationCheckResult
  yamlParse : Str → Except Str ArticleFrontMatter
  factCheckOutcome : Except Str (Option FactCheckResult)

/-- The initial `result` literal of `validateArticle`. -/
def initialResult : ArticleValidationResult :=
  ⟨false, [], [], false, false, [], [], none, none⟩

/-- The duplicate-path error message (JS template interpolation prints an
absent path as `"undefined"`). -/
def dupErrorMsg (path : Option Str) : Str :=
  "Article is a duplicate of existing file: ".toList ++
    (match path with
     | some p => p
     | none => "undefined".toList)

/-- The catch-block message `'Internal validation error: ' + message`. -/
def internalErrorMsg (e : Str) : Str :=
  "Internal validation error: ".toList ++ e

/-- Modelled from the spec: the fact-check stage of the four-argument
`ArticleValidator.validateArticle` (missing from `src/`; only its caller
`performArticleCheck` and the `factCheck` field declaration are present).
Per §4.7 the stage runs only when structural validation passes, and any
error it throws is caught at the orchestrator boundary and converted into a
message in the errors sequence. -/
def specRunFactCheckStage (outcome : Except Str (Option FactCheckResult))
    (structurallyValid : Bool) : Option FactCheckResult × List Str :=
  if structurallyValid then
    match outcome with
    | .ok fc => (fc, [])
    | .error e => (none, [internalErrorMsg e])
  else (none, [])

/-- Modelled from the spec: the fact-check conjunct of the final validity of
the four-argument `ArticleValidator.validateArticle` (missing from `src/`),
§4.7: "factCheck absent OR factCheck.confidence ≥ 0.7". -/
def specFactCheckGate : Option FactCheckResult → Bool
  | none => true
  | some fc => decide ((7 : ℚ)/10 ≤ fc.confidence)

/-- The non-duplicate path of `validateArticle`: front-matter parsing and
validation, section extraction and checks (lines 398-432), the spec-modelled
fact-check stage, and the final validity assignment (line 438 extended with
the spec-modelled fact-check conjunct). -/
def assembleNonDuplicate (b : CollaboratorBehavior) (content : Str)
    (dup : DuplicationCheckResult) : ArticleValidationResult :=
  let fmParsed := parseFrontMatter b.yamlParse content
  let fmValid :=
    match fmParsed.1 with
    | some fm => (validateFrontMatter fm).1
    | none => false
  let fmValErrors :=
    match fmParsed.1 with
    | some fm => (validateFrontMatter fm).2
    | none => []
  let secExtracted := extractSections content
  let missing := missingRequiredSections secExtracted.1
  let addl := additionalSections secExtracted.1
  let emptyErrs := emptySectionErrors secExtracted.1
  let sectionsValid := missing.isEmpty
  let fcStage := specRunFactCheckStage b.factCheckOutcome (fmValid && sectionsValid)
  let errors := fmParsed.2 ++ fmValErrors ++ secExtracted.2 ++ emptyErrs ++ fcStage.2
  { isValid := fmValid && sectionsValid && errors.isEmpty && specFactCheckGate fcStage.1
    errors := errors
    warnings := []
    frontMatterValid := fmValid
    sectionsValid := sectionsValid
    missingRequiredSections := missing
    additionalSections := addl
    duplicationCheck := some dup
    factCheck := fcStage.1 }

/-- `ArticleValidator.validateArticle` (the four-argument deployed variant;
see the section comment). The duplication stage throwing is caught at the
boundary (lines 433-436) and the final assignment then yields
`isValid = false` because the errors sequence is non-empty, so the initial
`false` stands; the duplicate branch returns from inside the `try` before
the final assignment, keeping the initial `isValid = false` and replacing
`errors` with the single duplicate message (lines 391-395). -/
def validateArticleModel (b : CollaboratorBehavior) (content : Str) :
    ArticleValidationResult :=
  match b.dupOutcome with
  | .error e => { initialResult with errors := [internalErrorMsg e] }
  | .ok dup =>
    if dup.isDuplicate = true then
      { initialResult with
        duplicationCheck := some dup
        errors := [dupErrorMsg dup.existingFilePath] }
    else assembleNonDuplicate b content dup

theorem assembleNonDuplicate_isValid (b : CollaboratorBehavior) (content : Str)
    (dup : DuplicationCheckResult) :
    (assembleNonDuplicate b content dup).isValid =
      ((assembleNonDuplicate b content dup).frontMatterValid &&
        (assembleNonDuplicate b content dup).sectionsValid &&
        (assembleNonDuplicate b content dup).errors.isEmpty &&
        specFactCheckGate (assembleNonDuplicate b content dup).factCheck) := rfl

theorem validateArticleModel_not_dup (b : CollaboratorBehavior) (content : Str)
    (dup : DuplicationCheckResult) (hdup : b.dupOutcome = .ok dup)
    (hnd : dup.isDuplicate = false) :
    validateArticleModel b content = assembleNonDuplicate b content dup := by
  simp [validateArticleModel, hdup, hnd]

/-- A fully valid front-matter record. -/
def validFM : ArticleFrontMatter :=
  ⟨"2020-01-01".toList, "KuCoin".toList, some ["exchange".toList],
    "hack".toList, "T".toList, some 0⟩

/-- A fact-check result with confidence 0.5. -/
def halfConfidenceResult : FactCheckResult := ⟨true, [], [], [], 1/2⟩

/-- A document with front matter and all five required sections non-empty. -/
def fiveSectionDoc : Str :=
  ("---\nm\n---\n## Summary\nA\n## Attackers\nB\n## Losses\nC\n## Timeline\nD\n## Security Failure Causes\nE").toList

/-- Collaborator behaviour: no corpus match, valid YAML, fact-check
confidence 0.5. -/
def exampleBehavior : CollaboratorBehavior :=
  ⟨.ok ⟨false, none, none⟩, fun _ => .ok validFM, .ok (some halfConfidenceResult)⟩

/-- C1: For every run of validateArticle on a non-duplicate document, the
returned isValid equals frontMatterValid AND sectionsValid AND the errors
sequence being empty AND (the fact-check result being absent OR its
confidence being at least 0.7); in particular, a document with valid front
matter, all five required sections non-empty, no corpus match, and a
fact-check confidence of 0.5 yields isValid=false. -/
theorem C1_validateArticle_final_validity (b : CollaboratorBehavior)
    (content : Str) (dup : DuplicationCheckResult)
    (hdup : b.dupOutcome = .ok dup) (hnd : dup.isDuplicate = false) :
    ((validateArticleModel b content).isValid =
      ((validateArticleModel b content).frontMatterValid &&
        (validateArticleModel b content).sectionsValid &&
        (validateArticleModel b content).errors.isEmpty &&
        (match (validateArticleModel b content).factCheck with
         | none => true
         | some fc => decide ((7 : ℚ)/10 ≤ fc.confidence)))) ∧
    (validateArticleModel exampleBehavior fiveSectionDoc).frontMatterValid = true ∧
    (validateArticleModel exampleBehavior fiveSectionDoc).sectionsValid = true ∧
    (validateArticleModel exampleBehavior fiveSectionDoc).missingRequiredSections = [] ∧
    (validateArticleModel exampleBehavior fiveSectionDoc).errors = [] ∧
    (validateArticleModel exampleBehavior fiveSectionDoc).duplicationCheck =
      some ⟨false, none, none⟩ ∧
    (validateArticleModel exampleBehavior fiveSectionDoc).factCheck =
      some halfConfidenceResult ∧
    (validateArticleModel exampleBehavior fiveSectionDoc).isValid = false := by
  have hmodel := validateArticleModel_not_dup b content dup hdup hnd
  have hmodel2 : validateArticleModel exampleBehavior fiveSectionDoc =
      assembleNonDuplicate exampleBehavior fiveSectionDoc ⟨false, none, none⟩ := rfl
  have hfm : (validateArticleModel exampleBehavior fiveSectionDoc).frontMatterValid
      = true := by rw [hmodel2]; decide
  have hsec : (validateArticleModel exampleBehavior fiveSectionDoc).sectionsValid
      = true := by rw [hmodel2]; decide
  have herr : (validateArticleModel exampleBehavior fiveSectionDoc).errors
      = [] := by rw [hmodel2]; decide
  have herrE : (validateArticleModel exampleBehavior fiveSectionDoc).errors.isEmpty
      = true := by rw [herr]; rfl
  have hfc : (validateArticleModel exampleBehavior fiveSectionDoc).factCheck
      = some halfConfidenceResult := rfl
  refine ⟨?_, hfm, hsec, by rw [hmodel2]; decide, herr, by rw [hmodel2]; decide,
    hfc, ?_⟩
  · rw [hmodel, assembleNonDuplicate_isValid]
    rcases hx : (assembleNonDuplicate b content dup).factCheck with _ | fc <;>
      simp [specFactCheckGate]
  · rw [hmodel2, assembleNonDuplicate_isValid, ← hmodel2, hfm, hsec, herrE, hfc]
    norm_num [specFactCheckGate, halfConfidenceResult]

/-- Witness for C1: the concrete run with fact-check confidence 0.5 has
isValid = false. -/
theorem C1_validateArticle_final_validity_witness :
    (validateArticleModel exampleBehavior fiveSectionDoc).isValid = false :=
  (C1_validateArticle_final_validity exampleBehavior fiveSectionDoc
    ⟨false, none, none⟩ rfl rfl).2.2.2.2.2.2.2

/-- C3: For every input content and for every behaviour of the external
collaborators, including any stage raising an exception, validateArticle
returns an ArticleValidationResult with the error converted into a message
in the errors sequence and never propagates an exception: the model is a
total function, a duplication-stage error e yields exactly the initial
result with errors = ['Internal validation error: ' + e] and isValid=false,
and a fact-check-stage error e (the stage runs when structural validation
passes) lands the same converted message in the errors sequence with
isValid=false. -/
theorem C3_validateArticle_error_conversion (b : CollaboratorBehavior)
    (content : Str) (e : Str) :
    (b.dupOutcome = .error e →
      validateArticleModel b content =
        { initialResult with errors := [internalErrorMsg e] } ∧
      (validateArticleModel b content).isValid = false) ∧
    (∀ dup, b.dupOutcome = .ok dup → dup.isDuplicate = false →
      b.factCheckOutcome = .error e →
      ((match (parseFrontMatter b.yamlParse content).1 with
        | some fm => (validateFrontMatter fm).1
        | none => false) &&
        (missingRequiredSections (extractSections content).1).isEmpty) = true →
      internalErrorMsg e ∈ (validateArticleModel b content).errors ∧
      (validateArticleModel b content).isValid = false) := by
  constructor
  · intro h
    constructor
    · simp [validateArticleModel, h]
    · simp [validateArticleModel, h, initialResult]
  · intro dup hdup hnd hfc hstruct
    rw [validateArticleModel_not_dup b content dup hdup hnd]
    simp only [assembleNonDuplicate]
    rw [hstruct]
    simp [specRunFactCheckStage, hfc]

/-- A behaviour whose duplication stage throws. -/
def throwingBehavior : CollaboratorBehavior :=
  ⟨.error ("boom".toList), fun _ => .ok validFM, .ok none⟩

/-- Witness for C3 at the throwing behaviour. -/
theorem C3_validateArticle_error_conversion_witness :
    validateArticleModel throwingBehavior fiveSectionDoc =
      { initialResult with errors := [internalErrorMsg ("boom".toList)] } ∧
    (validateArticleModel throwingBehavior fiveSectionDoc).isValid = false :=
  (C3_validateArticle_error_conversion throwingBehavior fiveSectionDoc
    ("boom".toList)).1 rfl
